import Mathlib

/-!
Shallow embedding of the generation orchestrator and structured-text
parsing engine of the idea-generator server (the OpenAI helper module).
Strings are modelled as lists of characters; JavaScript string methods
(trim, toLowerCase, startsWith, includes, split, substring) are embedded
as executable functions on character lists.  Network calls are modelled
by oracles: each upstream reply is an explicit `Except` value, success
carrying the raw reply text.  JavaScript objects used as insertion-ordered
maps of themes are modelled as association lists that preserve insertion
order and have unique keys by construction.
-/

set_option linter.unusedVariables false

abbrev Str := List Char

def str (s : String) : Str := s.data

/-- JavaScript String.prototype.toLowerCase (ASCII range, as relevant here). -/
def lower (s : Str) : Str := s.map Char.toLower

/-- JavaScript String.prototype.trim. -/
def trim (s : Str) : Str :=
  ((s.dropWhile Char.isWhitespace).reverse.dropWhile Char.isWhitespace).reverse

/-- First occurrence split: for nonempty sep, returns (before, after) of the
first occurrence of sep in s, or none if sep does not occur. -/
def breakOnSep (sep : Str) : Str → Option (Str × Str)
  | [] => none
  | c :: rest =>
    if sep.isPrefixOf (c :: rest) then some ([], (c :: rest).drop sep.length)
    else
      match breakOnSep sep rest with
      | none => none
      | some (b, a) => some (c :: b, a)

/-- JavaScript s.includes(sep) for nonempty sep. -/
def includesSub (sep s : Str) : Bool := (breakOnSep sep s).isSome

/-- JavaScript s.split(sep)[0]: text before the first occurrence of sep,
or the whole string when sep does not occur. -/
def beforeSep (sep s : Str) : Str :=
  match breakOnSep sep s with
  | some (b, _) => b
  | none => s

/-- JavaScript s.split(sep)[1]: text between the first and second
occurrence of sep (or after the first, if there is no second). -/
def sepField1 (sep s : Str) : Str :=
  match breakOnSep sep s with
  | none => []
  | some (_, a) =>
    match breakOnSep sep a with
    | none => a
    | some (b, _) => b

def splitOnSepFuel (sep : Str) : Nat → Str → List Str
  | 0, s => [s]
  | fuel + 1, s =>
    match breakOnSep sep s with
    | none => [s]
    | some (b, a) => b :: splitOnSepFuel sep fuel a

/-- JavaScript s.split(sep) for a nonempty separator. -/
def splitOnSep (sep s : Str) : List Str := splitOnSepFuel sep (s.length + 1) s

def splitNL (s : Str) : List Str := splitOnSep [Char.ofNat 10] s

def beforeColon (s : Str) : Str := beforeSep [':'] s

def colonField1 (s : Str) : Str := sepField1 [':'] s

def anyDigit (s : Str) : Bool := s.any Char.isDigit

/-- True when the line begins with a digit, a bullet or a dash
(the JavaScript test /\d/.test(t[0]) || t.startsWith('•') || t.startsWith('-')). -/
def isItemStart (s : Str) : Bool :=
  match s with
  | [] => false
  | c :: _ => c.isDigit || c = '•' || c = '-'

/-- JavaScript truthiness of the currentTheme variable: non-null and nonempty. -/
def themeOpen (o : Option Str) : Bool :=
  match o with
  | some t => !t.isEmpty
  | none => false

/-- Insertion-ordered theme map: create the key with an empty list if absent. -/
def ensure {α : Type} (ts : List (Str × List α)) (k : Str) : List (Str × List α) :=
  if (ts.find? (fun p => p.1 == k)).isSome then ts else ts ++ [(k, [])]

/-- Insertion-ordered theme map: append an item under key k. -/
def pushItem {α : Type} (ts : List (Str × List α)) (k : Str) (x : α) :
    List (Str × List α) :=
  if (ts.find? (fun p => p.1 == k)).isSome then
    ts.map (fun p => if p.1 == k then (p.1, p.2 ++ [x]) else p)
  else ts ++ [(k, [x])]

def stdMarkers : List Str :=
  [str "1.", str "2.", str "3.", str "4.", str "5.", str "•", str "-"]

def sketchMarkers : List Str := [str "1.", str "2.", str "3.", str "•", str "-"]

def hmwMarkers : List Str :=
  [str "1.", str "2.", str "3.", str "4.", str "5.", str "•", str "-",
   str "HMW", str "How might we"]

/-- Case-sensitive marker strip with first-match break (no colon handling). -/
def stripMarkerCS (markers : List Str) (s : Str) : Str :=
  match markers.find? (fun m => m.isPrefixOf s) with
  | some m => trim (s.drop m.length)
  | none => s

/-- Case-insensitive marker strip with first-match break and the
trailing-colon handling of the HMW grammar. -/
def stripMarkerCI (markers : List Str) (s : Str) : Str :=
  match markers.find? (fun m => (lower m).isPrefixOf (lower s)) with
  | some m =>
    let c := trim (s.drop m.length)
    if ([':'] : Str).isPrefixOf c then trim (c.drop 1) else c
  | none => s

/-- Canonicalization of an HMW statement: prefix "How might we " and
lower-case the whole remainder unless the text already begins
(case-insensitively) with the phrase. -/
def normalizeHMW (s : Str) : Str :=
  if (str "how might we").isPrefixOf (lower s) then s
  else str "How might we " ++ lower s

structure HMWState where
  themes : List (Str × List Str)
  currentTheme : Option Str
deriving DecidableEq

/-- One line of the HMW-themes grammar (parseHMWThemes loop body). -/
def hmwStep (st : HMWState) (line : Str) : HMWState :=
  let trimmed := trim line
  if trimmed.isEmpty then st
  else if (str "theme").isPrefixOf (lower trimmed) && trimmed.contains ':' then
    let t := trim (colonField1 trimmed)
    ⟨ensure st.themes t, some t⟩
  else if trimmed.contains ':' && !anyDigit (beforeColon trimmed) then
    let pt := trim (beforeColon trimmed)
    if pt.length < 50 then ⟨ensure st.themes pt, some pt⟩ else st
  else
    match st.currentTheme with
    | some t =>
      if !t.isEmpty then
        let cleaned := stripMarkerCI hmwMarkers trimmed
        if !cleaned.isEmpty &&
            ((str "how").isPrefixOf (lower cleaned) || decide (10 < cleaned.length)) then
          ⟨pushItem st.themes t (normalizeHMW cleaned), st.currentTheme⟩
        else st
      else st
    | none => st

def hmwScan (content : Str) : List (Str × List Str) :=
  ((splitNL content).foldl hmwStep ⟨[], none⟩).themes

/-- Predicate of the tier-1 fallback re-scan of parseHMWThemes. -/
def hmwFbPred (line : Str) : Bool :=
  let trimmed := trim line
  !trimmed.isEmpty &&
    ((match trimmed with
      | a :: b :: _ => decide ('1' ≤ a) && decide (a ≤ '5') && decide (b = '.')
      | _ => false) ||
     (str "•").isPrefixOf trimmed || (str "-").isPrefixOf trimmed ||
     (str "hmw").isPrefixOf (lower trimmed) || (str "how").isPrefixOf (lower trimmed))

def hmwFbMap (stmt : Str) : Str :=
  let cleaned := stripMarkerCI hmwMarkers (trim stmt)
  if cleaned.isEmpty then cleaned else normalizeHMW cleaned

def hmwFallbackStatements (content : Str) : List Str :=
  (((splitNL content).filter hmwFbPred).map hmwFbMap).filter (fun s => !s.isEmpty)

def hmwBucket (stmts : List Str) : List (Str × List Str) :=
  if stmts = [] then []
  else
    (str "Reframing", stmts.take 4) ::
      ((if 4 < stmts.length then [(str "Exploration", (stmts.drop 4).take 4)] else []) ++
       (if 8 < stmts.length then [(str "Innovation", stmts.drop 8)] else []))

def hmwDefaults : List Str :=
  [str "How might we approach this challenge from a user-centered perspective?",
   str "How might we leverage technology to solve this problem?",
   str "How might we create sustainable solutions for this challenge?"]

def hmwThemesOrFallback (content : Str) : List (Str × List Str) :=
  if hmwScan content = [] then hmwBucket (hmwFallbackStatements content)
  else hmwScan content

def parseHMWThemes (content : Str) : List (Str × List Str) :=
  if hmwThemesOrFallback content = [] then
    [(str "Design Exploration", hmwDefaults)]
  else hmwThemesOrFallback content

structure Feature where
  feature : Str
  rationale : Str
deriving DecidableEq

/-- Split a feature line into feature and rationale on an em-dash or " - ". -/
def splitFeature (ft : Str) : Feature :=
  if includesSub [Char.ofNat 8212] ft then
    ⟨trim (beforeSep [Char.ofNat 8212] ft), trim (sepField1 [Char.ofNat 8212] ft)⟩
  else if includesSub (str " - ") ft then
    ⟨trim (beforeSep (str " - ") ft), trim (sepField1 (str " - ") ft)⟩
  else ⟨ft, []⟩

structure FeatState where
  themes : List (Str × List Feature)
  currentTheme : Option Str
deriving DecidableEq

/-- One line of the feature-themes grammar (parseFeatureThemes loop body). -/
def featStep (st : FeatState) (line : Str) : FeatState :=
  let trimmed := trim line
  if trimmed.isEmpty then st
  else if (str "theme").isPrefixOf (lower trimmed) && trimmed.contains ':' then
    let t := trim (colonField1 trimmed)
    ⟨ensure st.themes t, some t⟩
  else if trimmed.contains ':' && !anyDigit ((beforeColon trimmed).take 10) then
    let pt := trim (beforeColon trimmed)
    if pt.length < 50 then ⟨ensure st.themes pt, some pt⟩ else st
  else
    match st.currentTheme with
    | some t =>
      if !t.isEmpty && isItemStart trimmed then
        match stdMarkers.find? (fun m => m.isPrefixOf trimmed) with
        | some m =>
          let featureText := trim (trimmed.drop m.length)
          ⟨pushItem st.themes t (splitFeature featureText), st.currentTheme⟩
        | none => st
      else st
    | none => st

def featScan (content : Str) : List (Str × List Feature) :=
  ((splitNL content).foldl featStep ⟨[], none⟩).themes

def featDefaults : List Feature :=
  [⟨str "Feature idea 1", str "Rationale 1"⟩,
   ⟨str "Feature idea 2", str "Rationale 2"⟩,
   ⟨str "Feature idea 3", str "Rationale 3"⟩]

def parseFeatureThemes (content : Str) : List (Str × List Feature) :=
  if featScan content = [] then [(str "Feature Ideas", featDefaults)]
  else featScan content

structure Layout where
  title : Str
  description : Str
deriving DecidableEq

structure LayoutState where
  themes : List (Str × List Layout)
  currentTheme : Option Str
  currentLayout : Option Layout
deriving DecidableEq

/-- Flush the open layout record into its theme when the JavaScript guard
(currentLayout && currentTheme && currentLayout.title) holds. -/
def layoutPush (st : LayoutState) : LayoutState :=
  match st.currentLayout, st.currentTheme with
  | some l, some t =>
    if !t.isEmpty && !l.title.isEmpty then
      ⟨pushItem st.themes t l, st.currentTheme, none⟩
    else st
  | _, _ => st

def descAppend (d t : Str) : Str := if d.isEmpty then t else d ++ (' ' :: t)

/-- One line of the layout-themes grammar (parseLayoutThemes loop body). -/
def layoutStep (st : LayoutState) (line : Str) : LayoutState :=
  let trimmed := trim line
  if trimmed.isEmpty then layoutPush st
  else if (str "theme").isPrefixOf (lower trimmed) && trimmed.contains ':' then
    let st1 := layoutPush st
    let t := trim (colonField1 trimmed)
    ⟨ensure st1.themes t, some t, st1.currentLayout⟩
  else if trimmed.contains ':' && !anyDigit ((beforeColon trimmed).take 10) then
    let pt := trim (beforeColon trimmed)
    if decide (pt.length < 50) && !themeOpen st.currentTheme then
      ⟨ensure st.themes pt, some pt, st.currentLayout⟩
    else if themeOpen st.currentTheme && st.currentLayout.isNone then
      ⟨st.themes, st.currentTheme, some ⟨stripMarkerCS stdMarkers trimmed, []⟩⟩
    else
      match st.currentLayout with
      | some l => ⟨st.themes, st.currentTheme, some ⟨l.title, descAppend l.description trimmed⟩⟩
      | none => st
  else if isItemStart trimmed then
    let st1 := layoutPush st
    ⟨st1.themes, st1.currentTheme, some ⟨stripMarkerCS stdMarkers trimmed, []⟩⟩
  else
    match st.currentLayout with
    | some l => ⟨st.themes, st.currentTheme, some ⟨l.title, descAppend l.description trimmed⟩⟩
    | none =>
      if themeOpen st.currentTheme then ⟨st.themes, st.currentTheme, some ⟨trimmed, []⟩⟩
      else st

def layoutScan (content : Str) : List (Str × List Layout) :=
  (layoutPush ((splitNL content).foldl layoutStep ⟨[], none, none⟩)).themes

/-- Tier-1 layout fallback: split the reply on blank-line sections and read
one layout record per section. -/
def layoutFallbackList (content : Str) : List Layout :=
  (splitOnSep (str "\n\n") content).filterMap (fun section' =>
    let sectionLines := ((splitNL section').map trim).filter (fun l => !l.isEmpty)
    match sectionLines with
    | [] => none
    | l0 :: rest =>
      let d := List.intercalate [' '] rest
      some ⟨stripMarkerCS stdMarkers l0, if d.isEmpty then str "Layout description" else d⟩)

def layoutBucket (ls : List Layout) : List (Str × List Layout) :=
  if ls = [] then []
  else
    (str "Information Architecture", ls.take 3) ::
      ((if 3 < ls.length then [(str "Interaction Patterns", (ls.drop 3).take 3)] else []) ++
       (if 6 < ls.length then [(str "Content Strategy", ls.drop 6)] else []))

def layoutDefaults : List Layout :=
  [⟨str "Layout 1", str "Description 1"⟩,
   ⟨str "Layout 2", str "Description 2"⟩,
   ⟨str "Layout 3", str "Description 3"⟩]

def layoutThemesOrFallback (content : Str) : List (Str × List Layout) :=
  if layoutScan content = [] then layoutBucket (layoutFallbackList content)
  else layoutScan content

def parseLayoutThemes (content : Str) : List (Str × List Layout) :=
  if layoutThemesOrFallback content = [] then
    [(str "Layout Directions", layoutDefaults)]
  else layoutThemesOrFallback content

structure UserSegment where
  segment_name : Str
  persona : Option (Str × Str)
  scenarios : List Str
deriving DecidableEq

/-- Index scan for the persona and key-scenarios sub-blocks of a segment
chunk: the persona index keeps updating, the scan stops at the first
key-scenarios line. -/
def scanPS : List Str → Nat → Option Nat → Option Nat × Option Nat
  | [], _, acc => (acc, none)
  | l :: rest, j, acc =>
    if (str "persona").isPrefixOf (lower l) then scanPS rest (j + 1) (some j)
    else if (str "key scenarios").isPrefixOf (lower l) then (acc, some j)
    else scanPS rest (j + 1) acc

def parseSegmentChunk (part : Str) : Option UserSegment :=
  let lines := ((splitNL part).map trim).filter (fun l => !l.isEmpty)
  match lines with
  | [] => none
  | l0 :: _ =>
    let name := if l0.contains ':' then trim (colonField1 l0) else l0
    let ps := scanPS lines 0 none
    let persona :=
      match ps.1 with
      | none => none
      | some p =>
        let endIdx := match ps.2 with | some s2 => s2 | none => lines.length
        let personaLines := ((lines.drop (p + 1)).take (endIdx - (p + 1))).takeWhile
          (fun l => !l.isEmpty && !(str "key").isPrefixOf (lower l))
        if personaLines.isEmpty then none
        else
          let personaText := List.intercalate [' '] personaLines
          let personaName :=
            if personaText.contains ':' then trim (beforeColon personaText)
            else trim (beforeSep ['.'] personaText)
          some (personaName, personaText)
    let scenarios :=
      match ps.2 with
      | none => []
      | some s2 =>
        ((lines.drop (s2 + 1)).takeWhile
            (fun l => !(str "user segment").isPrefixOf (lower l))).filterMap
          (fun l => (stdMarkers.find? (fun m => m.isPrefixOf l)).map
            (fun m => trim (l.drop m.length)))
    if persona.isSome || !scenarios.isEmpty then
      some ⟨name, persona, scenarios⟩
    else none

def segmentDefault : UserSegment :=
  ⟨str "Primary Users", some (str "User", str "Primary user persona"),
   [str "Scenario 1", str "Scenario 2"]⟩

def userSegsRaw (content : Str) : List UserSegment :=
  ((splitOnSep (str "User Segment") content).drop 1).filterMap parseSegmentChunk

def parseUserSegments (content : Str) : List UserSegment :=
  if userSegsRaw content = [] then [segmentDefault] else userSegsRaw content

/-- Visual-prompt extraction of generateSketchPrompts (success path). -/
def sketchParsed (content : Str) : List Str :=
  (((splitNL content).filter (fun l =>
      let t := trim l
      !t.isEmpty && isItemStart t)).map
    (fun p => stripMarkerCS sketchMarkers (trim p))).filter (fun s => !s.isEmpty)

def placeholderPrompts : List Str :=
  [str "sketch prompt 1", str "sketch prompt 2", str "sketch prompt 3"]

def sketchChoose (content : Str) : List Str :=
  if 3 ≤ (sketchParsed content).length then (sketchParsed content).take 3
  else placeholderPrompts

def generateSketchPrompts (reply : Except Str Str) : Except Str (List Str) :=
  match reply with
  | .ok content => .ok (sketchChoose content)
  | .error e => .error (str "Failed to generate sketch prompts: " ++ e)

/-- One line of the concept-explanation fallback segmentation
(parseSketchConcepts loop body, on the state (explanations, current)). -/
def sketchStep (st : List Str × Option Str) (line : Str) : List Str × Option Str :=
  let trimmed := trim line
  if trimmed.isEmpty then
    match st.2 with
    | some c => (st.1 ++ [c], none)
    | none => st
  else if isItemStart trimmed then
    let exps := match st.2 with | some c => st.1 ++ [c] | none => st.1
    let found := (sketchMarkers.find? (fun m => m.isPrefixOf trimmed)).map
      (fun m => trim (trimmed.drop m.length))
    let cur2 := match found with | some s2 => some s2 | none => st.2
    let cur3 :=
      match cur2 with
      | none => some trimmed
      | some x => if x.isEmpty then some trimmed else some x
    (exps, cur3)
  else
    match st.2 with
    | some c => (st.1, some (c ++ (' ' :: trimmed)))
    | none => (st.1, some trimmed)

def sketchExps (content : Str) : List Str :=
  let fin := (splitNL content).foldl sketchStep ([], none)
  match fin.2 with
  | some c => fin.1 ++ [c]
  | none => fin.1

def sketchCleaned (content : Str) : List Str :=
  (((sketchExps content).take 3).map trim).filter (fun s => !s.isEmpty)

def padSentence : Str :=
  str "This sketch explores a design approach for addressing the challenge."

def parseSketchConcepts (content : Str) : List Str :=
  (if (sketchCleaned content).length < 3 then
    sketchCleaned content ++
      List.replicate (3 - (sketchCleaned content).length) padSentence
  else sketchCleaned content).take 3

/-- Concept-explanation deriver: parses the reply on success, and on
upstream failure is caught locally, substituting the raw prompts. -/
def generateSketchConcepts (challenge : Str) (sketchPrompts : List Str)
    (reply : Except Str Str) : List Str :=
  match reply with
  | .ok content => parseSketchConcepts content
  | .error _ => sketchPrompts.take 3

structure ImgDatum where
  url : Option Str
  revised_prompt : Option Str
deriving DecidableEq

structure ImageSlot where
  url : Option Str
  revised_prompt : Option Str
  error : Option Str
deriving DecidableEq

abbrev ImgOutcome := Except Str (List ImgDatum)

/-- Settling of one image request: a rejection becomes an error slot, a
fulfilled reply with data becomes a url slot, otherwise an empty slot. -/
def settleImage : ImgOutcome → ImageSlot
  | .error m => ⟨none, none, some m⟩
  | .ok [] => ⟨none, none, none⟩
  | .ok (d :: _) => ⟨d.url, d.revised_prompt, none⟩

/-- Image generation with the isolate-all-results join: one slot per prompt
of the first three, at the same index, independent of sibling outcomes. -/
def generateImages (prompts : List Str) (oracle : Nat → ImgOutcome) : List ImageSlot :=
  (List.range ((prompts.take 3).length)).map (fun i => settleImage (oracle i))

/-- JavaScript images.map(img => img.url).filter(Boolean). -/
def truthyUrls (slots : List ImageSlot) : List Str :=
  (slots.map ImageSlot.url).filterMap (fun o =>
    match o with
    | some u => if u.isEmpty then none else some u
    | none => none)

def generateHMWStatements (reply : Except Str Str) :
    Except Str (List (Str × List Str)) :=
  match reply with
  | .ok content => .ok (parseHMWThemes content)
  | .error e => .error (str "Failed to generate HMW statements: " ++ e)

def generateFeatureIdeas (reply : Except Str Str) :
    Except Str (List (Str × List Feature)) :=
  match reply with
  | .ok content => .ok (parseFeatureThemes content)
  | .error e => .error (str "Failed to generate feature ideas: " ++ e)

def generateLayoutSuggestions (reply : Except Str Str) :
    Except Str (List (Str × List Layout)) :=
  match reply with
  | .ok content => .ok (parseLayoutThemes content)
  | .error e => .error (str "Failed to generate layout suggestions: " ++ e)

def generateUserContext (reply : Except Str Str) :
    Except Str (List UserSegment) :=
  match reply with
  | .ok content => .ok (parseUserSegments content)
  | .error e => .error (str "Failed to generate user context: " ++ e)

/-- Upstream replies of one generate invocation: the five stage-1 text
calls, the per-index image calls, and the concept-explanation call. -/
structure Oracle where
  hmw : Except Str Str
  feat : Except Str Str
  sketch : Except Str Str
  layout : Except Str Str
  user : Except Str Str
  images : Nat → ImgOutcome
  concept : Except Str Str

structure GenerationResult where
  hmw : List (Str × List Str)
  feature_ideas : List (Str × List Feature)
  sketch_prompts : List Str
  images : List ImageSlot
  image_urls : List Str
  user_context : List UserSegment
  layouts : List (Str × List Layout)
  sketch_concepts : List Str
deriving DecidableEq

def emptyResult : GenerationResult := ⟨[], [], [], [], [], [], [], []⟩

/-- Generation orchestrator: fail-fast join of the five stage-1 text calls
(determinized to the first rejection in registration order), then the
image stage and concept derivation, then assembly. -/
def generateAll (challenge : Str) (o : Oracle) : Except Str GenerationResult :=
  match generateHMWStatements o.hmw with
  | .error e => .error e
  | .ok hmwResults =>
    match generateFeatureIdeas o.feat with
    | .error e => .error e
    | .ok featureIdeas =>
      match generateSketchPrompts o.sketch with
      | .error e => .error e
      | .ok sketchPrompts =>
        match generateLayoutSuggestions o.layout with
        | .error e => .error e
        | .ok layouts =>
          match generateUserContext o.user with
          | .error e => .error e
          | .ok userContext =>
            let images := generateImages sketchPrompts o.images
            let sketchConcepts := generateSketchConcepts challenge sketchPrompts o.concept
            .ok ⟨hmwResults, featureIdeas, sketchPrompts, images,
                 truthyUrls images, userContext, layouts, sketchConcepts⟩

/-- Witness fixture: thirteen dash-marked lines, no theme header, driving
the HMW tier-1 fallback with more than twelve statements. -/
def hmwFbExample : Str :=
  str "- aa\n- aa\n- aa\n- aa\n- aa\n- aa\n- aa\n- aa\n- aa\n- aa\n- aa\n- aa\n- aa"

/-- Witness fixture: four blank-line-separated sections, no theme header,
driving the layout tier-1 fallback with four records. -/
def layoutFbExample : Str := str "- aa\n\n- bb\n\n- cc\n\n- dd"

/-- Witness fixture: image oracle whose second call (index 1) rejects. -/
def imgOracleC2 : Nat → ImgOutcome := fun i =>
  if i = 1 then Except.error (str "boom")
  else Except.ok [⟨some (str "u"), some (str "r")⟩]

/-- Witness fixture: image oracle for the orchestrator run, second call rejects. -/
def imgOracleC9 : Nat → ImgOutcome := fun i =>
  if i = 1 then Except.error (str "boom") else Except.ok [⟨some (str "u"), none⟩]

/-- Witness fixture: all five text calls succeed, three sketch prompts parse,
the second image call rejects. -/
def oracleC9 : Oracle :=
  ⟨Except.ok (str ""), Except.ok (str ""), Except.ok (str "1. a\n2. b\n3. c"),
   Except.ok (str ""), Except.ok (str ""), imgOracleC9, Except.ok (str "")⟩

/-- The concrete generation result of the oracleC9 run. -/
def resC9 : GenerationResult :=
  match generateAll (str "x") oracleC9 with
  | .ok r => r
  | .error _ => emptyResult

theorem isPrefixOf_extend {p l : Str} (m : Str) (h : p.isPrefixOf l = true) :
    p.isPrefixOf (l ++ m) = true := by
  induction p generalizing l with
  | nil => simp [List.isPrefixOf]
  | cons a p ih =>
    cases l with
    | nil => simp [List.isPrefixOf] at h
    | cons b l =>
      simp only [List.cons_append, List.isPrefixOf, Bool.and_eq_true] at h ⊢
      exact ⟨h.1, ih h.2⟩

/-- C1: for every reply text (including the empty string) parseHMWThemes,
parseFeatureThemes and parseLayoutThemes return at least one theme and
parseUserSegments returns at least one segment.  (Amended: a returned theme
may carry an empty item list; see the counterexample.) -/
theorem c1_parsers_never_empty : ∀ content : Str,
    parseHMWThemes content ≠ [] ∧ parseFeatureThemes content ≠ [] ∧
    parseLayoutThemes content ≠ [] ∧ parseUserSegments content ≠ [] := by
  intro content
  refine ⟨?_, ?_, ?_, ?_⟩
  · unfold parseHMWThemes
    split
    · exact List.cons_ne_nil _ _
    · assumption
  · unfold parseFeatureThemes
    split
    · exact List.cons_ne_nil _ _
    · assumption
  · unfold parseLayoutThemes
    split
    · exact List.cons_ne_nil _ _
    · assumption
  · unfold parseUserSegments
    split
    · exact List.cons_ne_nil _ _
    · assumption

/-- C1 counterexample: a reply consisting of a single theme header yields
one theme whose item list is empty, refuting "every theme in that result
contains at least one item". -/
theorem c1_counterexample :
    parseHMWThemes (str "Theme 1: Safety") = [(str "Safety", [])] ∧
    ¬ (∀ p ∈ parseHMWThemes (str "Theme 1: Safety"), p.2 ≠ []) := by
  decide

/-- C10: generateSketchPrompts on a successful reply returns exactly 3
prompts: the first three parsed ones when at least three parse, and the
fixed placeholder triple (discarding all parsed prompts) otherwise. -/
theorem c10_sketch_prompts_exactly_three : ∀ content : Str,
    generateSketchPrompts (Except.ok content) = Except.ok (sketchChoose content) ∧
    (sketchChoose content).length = 3 ∧
    (3 ≤ (sketchParsed content).length →
      sketchChoose content = (sketchParsed content).take 3) ∧
    ((sketchParsed content).length < 3 →
      sketchChoose content = placeholderPrompts) := by
  intro content
  refine ⟨rfl, ?_, ?_, ?_⟩
  · unfold sketchChoose
    split
    · next h => simp [List.length_take]; omega
    · decide
  · intro h
    unfold sketchChoose
    rw [if_pos h]
  · intro h
    unfold sketchChoose
    rw [if_neg (by omega)]

/-- C10 witness: a reply with only two list-marker lines parses to fewer
than three prompts and yields the placeholder triple. -/
theorem c10_witness :
    (sketchParsed (str "1. a\n2. b")).length < 3 ∧
    sketchChoose (str "1. a\n2. b") = placeholderPrompts :=
  ⟨by decide, (c10_sketch_prompts_exactly_three (str "1. a\n2. b")).2.2.2 (by decide)⟩

/-- C7 (amended): on a successfully returned reply the concept-explanation
deriver returns exactly 3 explanation strings, padding with the fixed
generic sentence when fewer than three parse and truncating when more; on
a failed call it returns the first at-most-three raw prompts instead. -/
theorem c7_concepts_exactly_three_amended :
    ∀ (challenge : Str) (prompts : List Str) (content : Str),
    (generateSketchConcepts challenge prompts (Except.ok content)).length = 3 ∧
    ((sketchCleaned content).length < 3 →
      generateSketchConcepts challenge prompts (Except.ok content) =
        sketchCleaned content ++
          List.replicate (3 - (sketchCleaned content).length) padSentence) ∧
    (3 ≤ (sketchCleaned content).length →
      generateSketchConcepts challenge prompts (Except.ok content) =
        (sketchCleaned content).take 3) ∧
    (∀ e : Str,
      generateSketchConcepts challenge prompts (Except.error e) = prompts.take 3) := by
  intro challenge prompts content
  have hred : generateSketchConcepts challenge prompts (Except.ok content) =
      parseSketchConcepts content := rfl
  refine ⟨?_, ?_, ?_, fun e => rfl⟩
  · rw [hred]
    unfold parseSketchConcepts
    split
    · next h =>
      simp [List.length_take, List.length_append, List.length_replicate]
      omega
    · next h => simp [List.length_take]; omega
  · intro h
    rw [hred]
    unfold parseSketchConcepts
    rw [if_pos h]
    apply List.take_of_length_le
    simp [List.length_append, List.length_replicate]
    omega
  · intro h
    rw [hred]
    unfold parseSketchConcepts
    rw [if_neg (by omega)]

/-- C7 counterexample: when the concept-explanation call fails and fewer
than three prompts were supplied, the deriver returns fewer than three
explanations, refuting "returns exactly 3" over every prompt list. -/
theorem c7_counterexample :
    generateSketchConcepts (str "c") [str "p1"] (Except.error (str "boom")) =
      [str "p1"] ∧
    (generateSketchConcepts (str "c") [str "p1"] (Except.error (str "boom"))).length ≠ 3 := by
  decide

/-- C7 witness: an empty reply parses to zero explanations and is padded
with three copies of the fixed generic sentence. -/
theorem c7_witness :
    (sketchCleaned (str "")).length < 3 ∧
    generateSketchConcepts (str "c") [] (Except.ok (str "")) =
      sketchCleaned (str "") ++
        List.replicate (3 - (sketchCleaned (str "")).length) padSentence :=
  ⟨by decide,
   (c7_concepts_exactly_three_amended (str "c") [] (str "")).2.1 (by decide)⟩

/-- C3: if any one of the five stage-1 text calls rejects (each conjunct
places the rejection at one position, the remaining replies arbitrary),
the whole generate invocation fails and no partial result is returned. -/
theorem c3_stage1_fail_fast :
    (∀ (challenge e : Str) (x2 x3 x4 x5 : Except Str Str)
        (img : Nat → ImgOutcome) (con : Except Str Str),
      ∃ m, generateAll challenge ⟨Except.error e, x2, x3, x4, x5, img, con⟩ =
        Except.error m) ∧
    (∀ (challenge e : Str) (x1 x3 x4 x5 : Except Str Str)
        (img : Nat → ImgOutcome) (con : Except Str Str),
      ∃ m, generateAll challenge ⟨x1, Except.error e, x3, x4, x5, img, con⟩ =
        Except.error m) ∧
    (∀ (challenge e : Str) (x1 x2 x4 x5 : Except Str Str)
        (img : Nat → ImgOutcome) (con : Except Str Str),
      ∃ m, generateAll challenge ⟨x1, x2, Except.error e, x4, x5, img, con⟩ =
        Except.error m) ∧
    (∀ (challenge e : Str) (x1 x2 x3 x5 : Except Str Str)
        (img : Nat → ImgOutcome) (con : Except Str Str),
      ∃ m, generateAll challenge ⟨x1, x2, x3, Except.error e, x5, img, con⟩ =
        Except.error m) ∧
    (∀ (challenge e : Str) (x1 x2 x3 x4 : Except Str Str)
        (img : Nat → ImgOutcome) (con : Except Str Str),
      ∃ m, generateAll challenge ⟨x1, x2, x3, x4, Except.error e, img, con⟩ =
        Except.error m) := by
  refine ⟨?_, ?_, ?_, ?_, ?_⟩
  · intro challenge e x2 x3 x4 x5 img con
    exact ⟨_, rfl⟩
  · intro challenge e x1 x3 x4 x5 img con
    cases x1 <;> exact ⟨_, rfl⟩
  · intro challenge e x1 x2 x4 x5 img con
    cases x1 <;> cases x2 <;> exact ⟨_, rfl⟩
  · intro challenge e x1 x2 x3 x5 img con
    cases x1 <;> cases x2 <;> cases x3 <;> exact ⟨_, rfl⟩
  · intro challenge e x1 x2 x3 x4 img con
    cases x1 <;> cases x2 <;> cases x3 <;> cases x4 <;> exact ⟨_, rfl⟩

/-- C8: a failure of the concept-explanation call is caught inside the
deriver, which substitutes the first at-most-three raw visual prompts, and
a generate invocation whose five stage-1 calls succeed still returns a
full result whose sketch concepts are the raw prompts. -/
theorem c8_concept_failure_recovered :
    (∀ (challenge : Str) (prompts : List Str) (e : Str),
      generateSketchConcepts challenge prompts (Except.error e) = prompts.take 3) ∧
    (∀ (challenge r1 r2 r3 r4 r5 e : Str) (img : Nat → ImgOutcome),
      ∃ r, generateAll challenge
          ⟨Except.ok r1, Except.ok r2, Except.ok r3, Except.ok r4, Except.ok r5,
           img, Except.error e⟩ = Except.ok r ∧
        r.sketch_concepts = r.sketch_prompts.take 3) := by
  refine ⟨fun _ _ _ => rfl, ?_⟩
  intro challenge r1 r2 r3 r4 r5 e img
  exact ⟨_, rfl, rfl⟩

/-- C2: for up to three visual prompts, generateImages returns exactly one
slot per prompt at the same index, each slot determined solely by its own
call's outcome, so a rejection fills its own slot without affecting
siblings. -/
theorem c2_image_slots_positional : ∀ (prompts : List Str) (oracle : Nat → ImgOutcome),
    prompts.length ≤ 3 →
    (generateImages prompts oracle).length = prompts.length ∧
    ∀ i, i < prompts.length →
      (generateImages prompts oracle)[i]? = some (settleImage (oracle i)) := by
  intro prompts oracle h
  have hlen : (prompts.take 3).length = prompts.length := by
    rw [List.length_take]; omega
  constructor
  · simp [generateImages, hlen]
  · intro i hi
    simp [generateImages, List.getElem?_map, List.getElem?_range, hlen, hi]

/-- C2 witness: three prompts whose second image call fails give three
slots, slots 0 and 2 carrying urls and slot 1 carrying a null url with the
error message. -/
theorem c2_witness :
    ([str "p0", str "p1", str "p2"].length ≤ 3) ∧
    (generateImages [str "p0", str "p1", str "p2"] imgOracleC2).length = 3 ∧
    (generateImages [str "p0", str "p1", str "p2"] imgOracleC2)[1]? =
      some (settleImage (imgOracleC2 1)) ∧
    generateImages [str "p0", str "p1", str "p2"] imgOracleC2 =
      [⟨some (str "u"), some (str "r"), none⟩,
       ⟨none, none, some (str "boom")⟩,
       ⟨some (str "u"), some (str "r"), none⟩] := by
  refine ⟨by decide, ?_, ?_, by decide⟩
  · exact (c2_image_slots_positional _ imgOracleC2 (by decide)).1
  · exact (c2_image_slots_positional _ imgOracleC2 (by decide)).2 1 (by decide)

/-- C4 (amended): the reframe canonicalization leaves a statement already
beginning case-insensitively with "how might we" unchanged, otherwise
prefixes "How might we " and lower-cases the entire remainder (not only
its first letter); the canonicalization is idempotent. -/
theorem c4_normalization_amended : ∀ s : Str,
    normalizeHMW (normalizeHMW s) = normalizeHMW s ∧
    normalizeHMW s =
      (if (str "how might we").isPrefixOf (lower s) then s
       else str "How might we " ++ lower s) := by
  intro s
  refine ⟨?_, rfl⟩
  by_cases h : (str "how might we").isPrefixOf (lower s) = true
  · have e : normalizeHMW s = s := by unfold normalizeHMW; rw [if_pos h]
    rw [e, e]
  · have e : normalizeHMW s = str "How might we " ++ lower s := by
      unfold normalizeHMW; rw [if_neg h]
    rw [e]
    have hpre : (str "how might we").isPrefixOf
        (lower (str "How might we " ++ lower s)) = true := by
      unfold lower
      rw [List.map_append]
      have h1 : List.map Char.toLower (str "How might we ") = str "how might we " := by
        decide
      rw [h1]
      exact isPrefixOf_extend _ (by decide)
    unfold normalizeHMW
    rw [if_pos hpre]

/-- C4 counterexample: a marker line with mixed-case remainder is parsed
into a statement whose whole remainder is lower-cased, not only its first
letter. -/
theorem c4_counterexample :
    parseHMWThemes (str "Theme 1: T\n1. Reduce Wait-Time Anxiety") =
      [(str "T", [str "How might we reduce wait-time anxiety"])] ∧
    str "How might we reduce wait-time anxiety" ≠
      str "How might we reduce Wait-Time Anxiety" := by
  decide

/-- C5 (amended): a non-blank colon line whose first ten pre-colon
characters hold no digit is an ad-hoc theme header only when no theme is
open in the layout grammar, where an open theme keeps the current theme
unchanged; but in the HMW grammar (pre-colon text digit-free and trimmed
under 50 characters) and in the feature grammar (first ten pre-colon
characters digit-free, trimmed under 50 characters) such a line becomes
the new current theme even while a theme is already open. -/
theorem c5_adhoc_header_amended :
    (∀ (st : LayoutState) (t line : Str),
      st.currentTheme = some t → t ≠ [] →
      trim line ≠ [] →
      (str "theme").isPrefixOf (lower (trim line)) = false →
      (trim line).contains ':' = true →
      anyDigit ((beforeColon (trim line)).take 10) = false →
      (layoutStep st line).currentTheme = some t) ∧
    (∀ (st : HMWState) (t line : Str),
      st.currentTheme = some t →
      trim line ≠ [] →
      (str "theme").isPrefixOf (lower (trim line)) = false →
      (trim line).contains ':' = true →
      anyDigit (beforeColon (trim line)) = false →
      (trim (beforeColon (trim line))).length < 50 →
      (hmwStep st line).currentTheme = some (trim (beforeColon (trim line)))) ∧
    (∀ (st : FeatState) (t line : Str),
      st.currentTheme = some t →
      trim line ≠ [] →
      (str "theme").isPrefixOf (lower (trim line)) = false →
      (trim line).contains ':' = true →
      anyDigit ((beforeColon (trim line)).take 10) = false →
      (trim (beforeColon (trim line))).length < 50 →
      (featStep st line).currentTheme = some (trim (beforeColon (trim line)))) := by
  refine ⟨?_, ?_, ?_⟩
  · intro st t line hct ht hnb hth hco hdig
    have hbe : (trim line).isEmpty = false := by
      cases h : trim line
      · exact absurd h hnb
      · rfl
    have hopen : themeOpen st.currentTheme = true := by
      rw [hct]
      unfold themeOpen
      simp [List.isEmpty_eq_true, ht]
    unfold layoutStep
    simp only [hbe, hth, hco, hdig, hopen, Bool.false_and, Bool.and_true,
      Bool.not_false, Bool.true_and, Bool.and_false, if_false, if_true,
      Bool.false_eq_true, if_neg, Bool.not_true]
    cases hcl : st.currentLayout <;> simp [hcl, hct]
  · intro st t line hct hnb hth hco hdig hlen
    have hbe : (trim line).isEmpty = false := by
      cases h : trim line
      · exact absurd h hnb
      · rfl
    unfold hmwStep
    simp only [hbe, hth, hco, hdig, Bool.false_and, Bool.and_true,
      Bool.not_false, Bool.true_and, Bool.false_eq_true, if_false, if_true]
    rw [if_pos hlen]
  · intro st t line hct hnb hth hco hdig hlen
    have hbe : (trim line).isEmpty = false := by
      cases h : trim line
      · exact absurd h hnb
      · rfl
    unfold featStep
    simp only [hbe, hth, hco, hdig, Bool.false_and, Bool.and_true,
      Bool.not_false, Bool.true_and, Bool.false_eq_true, if_false, if_true]
    rw [if_pos hlen]

/-- C5 counterexample: with theme "A" already open, the colon line
"Foo bar: baz" is reclassified as a new theme header by parseHMWThemes. -/
theorem c5_counterexample :
    parseHMWThemes (str "Theme 1: A\nFoo bar: baz") =
      [(str "A", []), (str "Foo bar", [])] ∧
    (parseHMWThemes (str "Theme 1: A\nFoo bar: baz")).length ≠ 1 := by
  decide

/-- C5 witness: the same colon line leaves the open layout theme in place
but becomes the new current theme of the HMW and feature grammars. -/
theorem c5_witness :
    (layoutStep ⟨[(str "A", [])], some (str "A"), none⟩ (str "Foo: bar")).currentTheme =
      some (str "A") ∧
    (hmwStep ⟨[(str "A", [])], some (str "A")⟩ (str "Foo: bar")).currentTheme =
      some (str "Foo") ∧
    (featStep ⟨[(str "A", [])], some (str "A")⟩ (str "Foo: bar")).currentTheme =
      some (str "Foo") := by
  refine ⟨?_, ?_, ?_⟩
  · exact c5_adhoc_header_amended.1 ⟨[(str "A", [])], some (str "A"), none⟩
      (str "A") (str "Foo: bar") rfl (by decide) (by decide) (by decide)
      (by decide) (by decide)
  · have h := c5_adhoc_header_amended.2.1 ⟨[(str "A", [])], some (str "A")⟩
      (str "A") (str "Foo: bar") rfl (by decide) (by decide) (by decide)
      (by decide) (by decide)
    rw [h]
    decide
  · have h := c5_adhoc_header_amended.2.2 ⟨[(str "A", [])], some (str "A")⟩
      (str "A") (str "Foo: bar") rfl (by decide) (by decide) (by decide)
      (by decide) (by decide)
    rw [h]
    decide

theorem hmwBucket_props (stmts : List Str) (h : stmts ≠ []) :
    (hmwBucket stmts).length ≤ 3 ∧
    (hmwBucket stmts).map Prod.fst =
      [str "Reframing", str "Exploration", str "Innovation"].take
        (hmwBucket stmts).length ∧
    ∀ p ∈ (hmwBucket stmts).take 2, p.2.length ≤ 4 := by
  unfold hmwBucket
  rw [if_neg h]
  by_cases h8 : 8 < stmts.length
  · have h4 : 4 < stmts.length := by omega
    rw [if_pos h4, if_pos h8]
    refine ⟨by simp, rfl, ?_⟩
    intro p hp
    rw [show (((str "Reframing", stmts.take 4) ::
        ([(str "Exploration", (stmts.drop 4).take 4)] ++
         [(str "Innovation", stmts.drop 8)])).take 2) =
      [(str "Reframing", stmts.take 4),
       (str "Exploration", (stmts.drop 4).take 4)] from rfl] at hp
    simp at hp
    rcases hp with h' | h' <;> subst h' <;> simp [List.length_take]
  · by_cases h4 : 4 < stmts.length
    · rw [if_pos h4, if_neg h8]
      refine ⟨by simp, rfl, ?_⟩
      intro p hp
      rw [show (((str "Reframing", stmts.take 4) ::
          ([(str "Exploration", (stmts.drop 4).take 4)] ++
           ([] : List (Str × List Str)))).take 2) =
        [(str "Reframing", stmts.take 4),
         (str "Exploration", (stmts.drop 4).take 4)] from rfl] at hp
      simp at hp
      rcases hp with h' | h' <;> subst h' <;> simp [List.length_take]
    · rw [if_neg h4, if_neg h8]
      refine ⟨by simp, rfl, ?_⟩
      intro p hp
      rw [show (((str "Reframing", stmts.take 4) ::
          (([] : List (Str × List Str)) ++ ([] : List (Str × List Str)))).take 2) =
        [(str "Reframing", stmts.take 4)] from rfl] at hp
      simp at hp
      subst hp
      simp [List.length_take]

theorem layoutBucket_props (ls : List Layout) (h : ls ≠ []) :
    (layoutBucket ls).length ≤ 3 ∧
    (layoutBucket ls).map Prod.fst =
      [str "Information Architecture", str "Interaction Patterns",
       str "Content Strategy"].take (layoutBucket ls).length ∧
    ∀ p ∈ (layoutBucket ls).take 2, p.2.length ≤ 3 := by
  unfold layoutBucket
  rw [if_neg h]
  by_cases h6 : 6 < ls.length
  · have h3 : 3 < ls.length := by omega
    rw [if_pos h3, if_pos h6]
    refine ⟨by simp, rfl, ?_⟩
    intro p hp
    rw [show (((str "Information Architecture", ls.take 3) ::
        ([(str "Interaction Patterns", (ls.drop 3).take 3)] ++
         [(str "Content Strategy", ls.drop 6)])).take 2) =
      [(str "Information Architecture", ls.take 3),
       (str "Interaction Patterns", (ls.drop 3).take 3)] from rfl] at hp
    simp at hp
    rcases hp with h' | h' <;> subst h' <;> simp [List.length_take]
  · by_cases h3 : 3 < ls.length
    · rw [if_pos h3, if_neg h6]
      refine ⟨by simp, rfl, ?_⟩
      intro p hp
      rw [show (((str "Information Architecture", ls.take 3) ::
          ([(str "Interaction Patterns", (ls.drop 3).take 3)] ++
           ([] : List (Str × List Layout)))).take 2) =
        [(str "Information Architecture", ls.take 3),
         (str "Interaction Patterns", (ls.drop 3).take 3)] from rfl] at hp
      simp at hp
      rcases hp with h' | h' <;> subst h' <;> simp [List.length_take]
    · rw [if_neg h3, if_neg h6]
      refine ⟨by simp, rfl, ?_⟩
      intro p hp
      rw [show (((str "Information Architecture", ls.take 3) ::
          (([] : List (Str × List Layout)) ++ ([] : List (Str × List Layout)))).take 2) =
        [(str "Information Architecture", ls.take 3)] from rfl] at hp
      simp at hp
      subst hp
      simp [List.length_take]

/-- C6 (amended): when the primary grammar yields zero themes and the
tier-1 re-scan finds at least one item, the fallback produces at most
three synthetic themes named in order from the fixed label set, and the
first two themes hold at most four items each for reframes (three for
layouts); the final theme holds all remaining items and may exceed that
bound (see the counterexample). -/
theorem c6_fallback_buckets_amended :
    (∀ content : Str, hmwScan content = [] → hmwFallbackStatements content ≠ [] →
      (parseHMWThemes content).length ≤ 3 ∧
      (parseHMWThemes content).map Prod.fst =
        [str "Reframing", str "Exploration", str "Innovation"].take
          (parseHMWThemes content).length ∧
      ∀ p ∈ (parseHMWThemes content).take 2, p.2.length ≤ 4) ∧
    (∀ content : Str, layoutScan content = [] → layoutFallbackList content ≠ [] →
      (parseLayoutThemes content).length ≤ 3 ∧
      (parseLayoutThemes content).map Prod.fst =
        [str "Information Architecture", str "Interaction Patterns",
         str "Content Strategy"].take (parseLayoutThemes content).length ∧
      ∀ p ∈ (parseLayoutThemes content).take 2, p.2.length ≤ 3) := by
  constructor
  · intro content hscan hstmts
    have h1 : hmwThemesOrFallback content = hmwBucket (hmwFallbackStatements content) := by
      unfold hmwThemesOrFallback
      rw [if_pos hscan]
    have h2 : hmwBucket (hmwFallbackStatements content) ≠ [] := by
      unfold hmwBucket
      rw [if_neg hstmts]
      exact List.cons_ne_nil _ _
    have h3 : parseHMWThemes content = hmwBucket (hmwFallbackStatements content) := by
      unfold parseHMWThemes
      rw [h1, if_neg h2]
    rw [h3]
    exact hmwBucket_props _ hstmts
  · intro content hscan hls
    have h1 : layoutThemesOrFallback content = layoutBucket (layoutFallbackList content) := by
      unfold layoutThemesOrFallback
      rw [if_pos hscan]
    have h2 : layoutBucket (layoutFallbackList content) ≠ [] := by
      unfold layoutBucket
      rw [if_neg hls]
      exact List.cons_ne_nil _ _
    have h3 : parseLayoutThemes content = layoutBucket (layoutFallbackList content) := by
      unfold parseLayoutThemes
      rw [h1, if_neg h2]
    rw [h3]
    exact layoutBucket_props _ hls

/-- C6 counterexample: thirteen fallback items put five statements in the
third synthetic theme, refuting "at most four items each". -/
theorem c6_counterexample :
    ((parseHMWThemes hmwFbExample).map (fun p => (p.1, p.2.length))) =
      [(str "Reframing", 4), (str "Exploration", 4), (str "Innovation", 5)] ∧
    ∃ p ∈ parseHMWThemes hmwFbExample, 4 < p.2.length := by
  decide

/-- C6 witness: concrete fallback runs for both grammars. -/
theorem c6_witness :
    (hmwScan hmwFbExample = [] ∧ hmwFallbackStatements hmwFbExample ≠ [] ∧
      (parseHMWThemes hmwFbExample).length ≤ 3) ∧
    (layoutScan layoutFbExample = [] ∧ layoutFallbackList layoutFbExample ≠ [] ∧
      (parseLayoutThemes layoutFbExample).length ≤ 3) :=
  ⟨⟨by decide, by decide,
    (c6_fallback_buckets_amended.1 hmwFbExample (by decide) (by decide)).1⟩,
   ⟨by decide, by decide,
    (c6_fallback_buckets_amended.2 layoutFbExample (by decide) (by decide)).1⟩⟩

theorem truthyUrls_sublist (slots : List ImageSlot) :
    List.Sublist (truthyUrls slots) (slots.filterMap ImageSlot.url) := by
  induction slots with
  | nil => simp [truthyUrls]
  | cons s tl ih =>
    cases hu : s.url with
    | none =>
      simp only [truthyUrls, List.map_cons, List.filterMap_cons, hu] at ih ⊢
      exact ih
    | some u =>
      by_cases hue : u.isEmpty = true
      · simp only [truthyUrls, List.map_cons, List.filterMap_cons, hu, hue,
          if_pos] at ih ⊢
        exact List.Sublist.cons u ih
      · simp only [truthyUrls, List.map_cons, List.filterMap_cons, hu,
          hue, if_neg, Bool.false_eq_true] at ih ⊢
        exact List.Sublist.cons₂ u ih

theorem truthyUrls_length_le (slots : List ImageSlot) :
    (truthyUrls slots).length ≤ slots.length :=
  Nat.le_trans (List.Sublist.length_le (truthyUrls_sublist slots))
    (List.length_filterMap_le _ _)

theorem truthyUrls_length_lt (slots : List ImageSlot) (s : ImageSlot)
    (hmem : s ∈ slots) (hnone : s.url = none) :
    (truthyUrls slots).length < slots.length := by
  induction slots with
  | nil => cases hmem
  | cons a tl ih =>
    rcases List.mem_cons.mp hmem with h | h
    · subst h
      have h1 : truthyUrls (s :: tl) = truthyUrls tl := by
        simp [truthyUrls, List.filterMap_cons, hnone]
      rw [h1]
      have := truthyUrls_length_le tl
      simp only [List.length_cons]
      omega
    · have hlt := ih h
      cases ha : a.url with
      | none =>
        have h1 : truthyUrls (a :: tl) = truthyUrls tl := by
          simp [truthyUrls, List.filterMap_cons, ha]
        rw [h1]
        simp only [List.length_cons]
        omega
      | some u =>
        by_cases hue : u = []
        · have h1 : truthyUrls (a :: tl) = truthyUrls tl := by
            simp [truthyUrls, List.filterMap_cons, ha, hue]
          rw [h1]
          simp only [List.length_cons]
          omega
        · have h1 : truthyUrls (a :: tl) = u :: truthyUrls tl := by
            simp [truthyUrls, List.filterMap_cons, ha, hue]
          rw [h1]
          simp only [List.length_cons]
          omega

/-- C9: in a successful generateAll result, image_urls is the
truthiness-filtered url projection of the slots: an order-preserving
sublist of the successful slot urls; any slot with a null url makes
image_urls strictly shorter than the slot list, while the images field
keeps one slot per (first-three) prompt. -/
theorem c9_image_urls_filtered :
    (∀ (challenge r1 r2 r3 r4 r5 : Str) (img : Nat → ImgOutcome)
        (con : Except Str Str),
      ∃ r, generateAll challenge
          ⟨Except.ok r1, Except.ok r2, Except.ok r3, Except.ok r4, Except.ok r5,
           img, con⟩ = Except.ok r ∧
        r.image_urls = truthyUrls r.images ∧
        r.images.length = (r.sketch_prompts.take 3).length) ∧
    (∀ slots : List ImageSlot,
      List.Sublist (truthyUrls slots) (slots.filterMap ImageSlot.url)) ∧
    (∀ (slots : List ImageSlot) (s : ImageSlot), s ∈ slots → s.url = none →
      (truthyUrls slots).length < slots.length) := by
  refine ⟨?_, truthyUrls_sublist, truthyUrls_length_lt⟩
  intro challenge r1 r2 r3 r4 r5 img con
  refine ⟨_, rfl, rfl, ?_⟩
  simp [generateImages]

/-- C9 witness: a concrete run whose second image call fails has a null
slot and an image_urls list strictly shorter than the slot list. -/
theorem c9_witness :
    generateAll (str "x") oracleC9 = Except.ok resC9 ∧
    (⟨none, none, some (str "boom")⟩ : ImageSlot) ∈ resC9.images ∧
    resC9.image_urls.length < resC9.images.length := by
  refine ⟨rfl, by decide, ?_⟩
  have h := c9_image_urls_filtered.2.2 resC9.images
    ⟨none, none, some (str "boom")⟩ (by decide) rfl
  exact h
